import Mathlib

/-!
Shallow embedding of the batch-annotation pipeline of the repository
`rss-ai-category` (source files `ai_category.py` and `a.py`).

External effects are modelled explicitly:
* the external classifier call (`client.chat.complete`) is an oracle
  function from the attempt number to `Except String String`
  (error message or returned category text);
* `time.sleep d` is recorded by appending `d` to a list of sleeps;
* the persisted JSON file is a Lean list threaded through the run, and
  every write (`json.dump`) is recorded as a snapshot in a `saves` list;
* wall-clock timestamp fields written into the JSON records
  (`categorized_at`, `categorization_timestamp`) are environment noise
  and are not modelled;
* log/print statements are not modelled except where they are the only
  observable distinguishing a control path, in which case the path is
  recorded as an `Outcome`.
-/

deriving instance DecidableEq for Except

/-- The Python substring test `pat in s`, on explicit character lists. -/
def substrB (pat : List Char) : List Char → Bool
  | [] => pat.isEmpty
  | c :: rest => pat.isPrefixOf (c :: rest) || substrB pat rest

namespace AiCategory

/-- Retry condition of `optimize_title` / `determine_category` in
`ai_category.py`: `"rate limit" in str(e).lower()`. -/
def isRateLimitMsg (msg : String) : Bool :=
  substrB "rate limit".data (msg.data.map Char.toLower)

/-- The configuration keys of `config.yaml` that the control logic of
`ai_category.py` reads (`config['optimization']` and
`config['articles']['limit']`).  `exponential_backoff` defaults to
`False` and `max_backoff` to `30` via the `.get` calls of the source; here
resolved values are fields. -/
structure Config where
  maxRetries : Nat
  retryDelay : Nat
  exponentialBackoff : Bool
  maxBackoff : Nat
  requestDelay : Nat
  limit : Nat
  deriving Repr, DecidableEq

/-- An element of the fetched `articles` array.  Fields are optional
because `main` reads them with `article.get(..., default)`. -/
structure Article where
  title : Option String
  optimizedTitle : Option String
  description : Option String
  link : Option String
  published : Option String
  deriving Repr, DecidableEq

/-- A record written to `categorized_articles.json` by `main`
(the `categorized_article` dict, minus the wall-clock
`categorized_at` field). -/
structure CategorizedArticle where
  originalTitle : String
  optimizedTitle : String
  category : String
  description : String
  link : String
  published : String
  deriving Repr, DecidableEq

/-- The `categorized_article` dict built in `main` from the fields of
an article, using the same `.get` defaults as the source. -/
def mkCategorized (a : Article) (category : String) : CategorizedArticle :=
  let original := a.title.getD ""
  { originalTitle := original
    optimizedTitle := a.optimizedTitle.getD original
    category := category
    description := a.description.getD ""
    link := a.link.getD ""
    published := a.published.getD "" }

/-- The backoff delay computed in the `except` branch of
`determine_category` (and identically in `optimize_title`). -/
def backoffDelay (cfg : Config) (retry_count : Nat) : Nat :=
  if cfg.exponentialBackoff then
    min (cfg.retryDelay * 2 ^ retry_count) cfg.maxBackoff
  else cfg.retryDelay

/-- Observable result of one `determine_category` invocation chain:
the final result, the backoff sleeps performed (in order), and the
number of external classifier calls made. -/
structure CatRun where
  result : Except String String
  delays : List Nat
  attempts : Nat
  deriving Repr, DecidableEq

/-- Recursion core of `determine_category`.  The source recurses with
`retry_count + 1` under the guard `retry_count < max_retries`; here the
remaining retry budget `max_retries - retry_count` is passed explicitly
as a structurally decreasing argument, and the guard is exactly the
budget being nonzero (`b + 1 = max_retries - retry_count` iff
`retry_count < max_retries`, and then `b = max_retries - (retry_count + 1)`). -/
def determineCategoryGo (cfg : Config) (call : Nat → Except String String) :
    Nat → Nat → CatRun
  | retry_count, 0 =>
    match call retry_count with
    | .ok category => ⟨.ok category, [], 1⟩
    | .error e => ⟨.error e, [], 1⟩
  | retry_count, b + 1 =>
    match call retry_count with
    | .ok category => ⟨.ok category, [], 1⟩
    | .error e =>
      if isRateLimitMsg e then
        let d := backoffDelay cfg retry_count
        let r := determineCategoryGo cfg call (retry_count + 1) b
        ⟨r.result, d :: r.delays, r.attempts + 1⟩
      else ⟨.error e, [], 1⟩

/-- The function `determine_category` of `ai_category.py`.  Here
`call n` is the outcome
of the external classifier call made when `retry_count = n`.  A failure
whose message satisfies `isRateLimitMsg` is retried (with
`retry_count + 1`) after sleeping `backoffDelay`, as long as
`retry_count < max_retries`; any other failure is re-raised. -/
def determine_category (cfg : Config) (call : Nat → Except String String)
    (retry_count : Nat) : CatRun :=
  determineCategoryGo cfg call retry_count (cfg.maxRetries - retry_count)

/-- The function `save_categorized_articles` of `ai_category.py`, as a
function from
the new articles, the `append` flag and the current file content
(`none` when the file does not exist) to the new file content: with
`append=True` and an existing file the new articles are appended after
`existing_data.get('articles', [])`, otherwise the file is overwritten
with just the new articles. -/
def save_categorized_articles (articles : List CategorizedArticle)
    (append : Bool) (file : Option (List CategorizedArticle)) :
    List CategorizedArticle :=
  match append, file with
  | true, some existing => existing ++ articles
  | _, _ => articles

/-- The terminal state of one article in the loop of `main`: the `try`
body ran to completion (`processed`, with the category that was saved),
or the `except` branch fired (`failed`, with the message). -/
inductive Outcome where
  | processed (category : String)
  | failed (cause : String)
  deriving Repr, DecidableEq

def Outcome.isProcessed : Outcome → Bool
  | .processed _ => true
  | .failed _ => false

def Outcome.isFailed : Outcome → Bool
  | .processed _ => false
  | .failed _ => true

/-- Observables of a suffix of the loop of `main`: the final file content,
the successive file snapshots written by `save_categorized_articles`,
one `Outcome` per article in order, the classifier calls made as
(1-based article index, retry_count) pairs in order, and the sleeps
performed in order. -/
structure MainResult where
  file : List CategorizedArticle
  saves : List (List CategorizedArticle)
  outcomes : List Outcome
  calls : List (Nat × Nat)
  sleeps : List Nat
  deriving Repr, DecidableEq

/-- The `for i, article in enumerate(articles[:limit], 1)` loop of
`main`, from index `i` with current file content `file`.  For `i > 1` it
first sleeps `request_delay`; then it runs `determine_category`
(oracle `call i`); on success it builds the record and calls
`save_categorized_articles([record], append=True)`; on any exception it
logs and continues with the next article. -/
def processArticles (cfg : Config) (call : Nat → Nat → Except String String) :
    Nat → List CategorizedArticle → List Article → MainResult
  | _, file, [] => ⟨file, [], [], [], []⟩
  | i, file, a :: rest =>
    let preSleep : List Nat := if 1 < i then [cfg.requestDelay] else []
    let cr := determine_category cfg (call i) 0
    let theseCalls := (List.range cr.attempts).map fun k => (i, k)
    match cr.result with
    | .ok category =>
      let r0 := mkCategorized a category
      let f1 := save_categorized_articles [r0] true (some file)
      let r := processArticles cfg call (i + 1) f1 rest
      ⟨r.file, f1 :: r.saves, .processed category :: r.outcomes,
        theseCalls ++ r.calls, preSleep ++ cr.delays ++ r.sleeps⟩
    | .error e =>
      let r := processArticles cfg call (i + 1) file rest
      ⟨r.file, r.saves, .failed e :: r.outcomes,
        theseCalls ++ r.calls, preSleep ++ cr.delays ++ r.sleeps⟩

/-- The function `main` of `ai_category.py`: iterates over `articles[:limit]`
starting at index 1.  `file` is the content of
`categorized_articles.json` on disk when the run starts (`[]` when the
file is absent, matching `data.get('articles', [])` on the save path). -/
def main (cfg : Config) (call : Nat → Nat → Except String String)
    (articles : List Article) (file : List CategorizedArticle) : MainResult :=
  processArticles cfg call 1 file (articles.take cfg.limit)

end AiCategory

namespace APy

/-- Retry condition of `analyze_and_categorize_data` in `a.py`:
`"429" in str(e)`. -/
def contains429 (msg : String) : Bool :=
  substrB "429".data msg.data

/-- An element of the fetched `articles` array in `a.py`.  The loop
body indexes `entry['original_title']` and `entry['optimized_title']`
directly and reads `entry.get('description', ...)`; the two mandatory
fields are modelled as present (a missing key would raise `KeyError`,
which the code treats as any other terminal error). -/
structure AEntry where
  originalTitle : String
  optimizedTitle : String
  description : Option String
  deriving Repr, DecidableEq

/-- The dict `categorized_entry`, built as `entry.copy()` with the
returned `category` added. -/
structure ACategorized where
  entry : AEntry
  category : String
  deriving Repr, DecidableEq

/-- Observable result of the `while retry_count < max_retries` loop for
one entry in `a.py`: `result` is the category on success, `cause` the
message of a terminal (non-429) error, and both are `none` when the
loop exited because the retry budget ran out; `sleeps` are the
`time.sleep(retry_delay)` calls, `attempts` the number of external
classifier calls, and `retryCountAfter` the value of `retry_count`
when the loop was left. -/
structure EntryRun where
  result : Option String
  cause : Option String
  sleeps : List Nat
  attempts : Nat
  retryCountAfter : Nat
  deriving Repr, DecidableEq

/-- Recursion core of the per-entry `while` loop of `a.py`.  The loop
condition `retry_count < max_retries` is represented by the remaining
budget `max_retries - retry_count` being nonzero; the budget is a
structurally decreasing argument (`b + 1 = max_retries - retry_count`
iff `retry_count < max_retries`, and then
`b = max_retries - (retry_count + 1)`). -/
def entryLoopGo (retry_delay : Nat) (call : Nat → Except String String) :
    Nat → Nat → Nat → EntryRun
  | _, retry_count, 0 => ⟨none, none, [], 0, retry_count⟩
  | attemptIdx, retry_count, b + 1 =>
    match call attemptIdx with
    | .ok category => ⟨some category, none, [], 1, 0⟩
    | .error e =>
      if contains429 e then
        let r := entryLoopGo retry_delay call (attemptIdx + 1)
          (retry_count + 1) b
        ⟨r.result, r.cause, retry_delay :: r.sleeps, r.attempts + 1,
          r.retryCountAfter⟩
      else ⟨none, some e, [], 1, retry_count⟩

/-- The `while retry_count < max_retries` loop of `a.py` for one entry.
`call k` is the outcome of the k-th external call made for this entry
(counting from 0).  On success `retry_count` is set to 0 and the loop
breaks; on a message containing "429" the counter is incremented, the
flow sleeps `retry_delay` and retries; on any other error the loop
breaks without touching the counter; when the condition
`retry_count < max_retries` fails the loop is not entered at all. -/
def entryLoop (max_retries retry_delay : Nat)
    (call : Nat → Except String String) (attemptIdx retry_count : Nat) :
    EntryRun :=
  entryLoopGo retry_delay call attemptIdx retry_count
    (max_retries - retry_count)

/-- The terminal state of one entry in `a.py`: success, terminal error,
or the `retry_count >= max_retries` branch that prints
"Maximum retries reached, skipping entry". -/
inductive AOutcome where
  | processed (category : String)
  | failed (cause : String)
  | maxRetriesSkipped
  deriving Repr, DecidableEq

def AOutcome.isProcessed : AOutcome → Bool
  | .processed _ => true
  | _ => false

def AOutcome.isFailed : AOutcome → Bool
  | .failed _ => true
  | _ => false

def AOutcome.isMaxRetriesSkipped : AOutcome → Bool
  | .maxRetriesSkipped => true
  | _ => false

/-- Observables of a suffix of the `for entry in data` loop of `a.py`:
the final in-memory `categorized_data`, the successive file snapshots
written by `save_progress`, one `AOutcome` per entry in order, the
sleeps, the classifier calls as (0-based entry index, attempt) pairs,
and the final value of the `retry_count` variable. -/
structure AResult where
  data : List ACategorized
  saves : List (List ACategorized)
  outcomes : List AOutcome
  calls : List (Nat × Nat)
  sleeps : List Nat
  retryCount : Nat
  deriving Repr, DecidableEq

/-- The `for entry in data` loop of `a.py` from entry index `idx`,
with the current shared `retry_count` value `rc` and in-memory
`categorized_data` value `data`.  Note that `retry_count` is a single
variable shared across entries: it is reset to 0 on success and on the
`retry_count >= max_retries` branch, but a terminal error leaves the
value accumulated by earlier 429 retries in place for the next entry. -/
def aLoop (max_retries retry_delay : Nat)
    (call : Nat → Nat → Except String String) :
    Nat → Nat → List ACategorized → List AEntry → AResult
  | _, rc, data, [] => ⟨data, [], [], [], [], rc⟩
  | idx, rc, data, e :: rest =>
    let er := entryLoop max_retries retry_delay (call idx) 0 rc
    let theseCalls := (List.range er.attempts).map fun k => (idx, k)
    match er.result with
    | some category =>
      let data1 := data ++ [⟨e, category⟩]
      let r := aLoop max_retries retry_delay call (idx + 1)
        er.retryCountAfter data1 rest
      ⟨r.data, data1 :: r.saves, .processed category :: r.outcomes,
        theseCalls ++ r.calls, er.sleeps ++ r.sleeps, r.retryCount⟩
    | none =>
      match er.cause with
      | some cause =>
        let r := aLoop max_retries retry_delay call (idx + 1)
          er.retryCountAfter data rest
        ⟨r.data, r.saves, .failed cause :: r.outcomes,
          theseCalls ++ r.calls, er.sleeps ++ r.sleeps, r.retryCount⟩
      | none =>
        let r := aLoop max_retries retry_delay call (idx + 1) 0 data rest
        ⟨r.data, r.saves, .maxRetriesSkipped :: r.outcomes,
          theseCalls ++ r.calls, er.sleeps ++ r.sleeps, r.retryCount⟩

/-- The function `analyze_and_categorize_data` of `a.py` (its per-entry
control
loop; fetching the feed and constructing the client are I/O shims).
The source fixes `max_retries = 3` and `retry_delay = 5`; they are
parameters here so that statements about the budget are general.
`categorized_data` starts empty and `retry_count` starts at 0. -/
def analyze_and_categorize_data (max_retries retry_delay : Nat)
    (call : Nat → Nat → Except String String) (entries : List AEntry) :
    AResult :=
  aLoop max_retries retry_delay call 0 0 [] entries

end APy

open AiCategory APy

/-- Unfolding of `determine_category` when the call succeeds: the result
is returned after exactly one external call and no sleep. -/
theorem determine_category_ok (cfg : Config) (call : Nat → Except String String)
    (c : String) (rc : Nat) (hcall : call rc = .ok c) :
    determine_category cfg call rc = ⟨.ok c, [], 1⟩ := by
  rw [determine_category]
  cases cfg.maxRetries - rc <;> simp [determineCategoryGo, hcall]

/-- Unfolding of `determine_category` on a failure whose message does not
contain "rate limit": the error is re-raised after one call, no sleep. -/
theorem determine_category_terminal (cfg : Config)
    (call : Nat → Except String String) (e : String) (rc : Nat)
    (hcall : call rc = .error e) (hrl : isRateLimitMsg e = false) :
    determine_category cfg call rc = ⟨.error e, [], 1⟩ := by
  rw [determine_category]
  cases cfg.maxRetries - rc <;> simp [determineCategoryGo, hcall, hrl]

/-- Unfolding of `determine_category` on a rate-limit failure within the
retry budget: one backoff sleep of `backoffDelay cfg rc`, then the same
operation is retried with `retry_count + 1`. -/
theorem determine_category_retry (cfg : Config)
    (call : Nat → Except String String) (e : String) (rc : Nat)
    (hcall : call rc = .error e) (hrl : isRateLimitMsg e = true)
    (hrc : rc < cfg.maxRetries) :
    determine_category cfg call rc =
      ⟨(determine_category cfg call (rc + 1)).result,
        backoffDelay cfg rc :: (determine_category cfg call (rc + 1)).delays,
        (determine_category cfg call (rc + 1)).attempts + 1⟩ := by
  have hb : cfg.maxRetries - rc = (cfg.maxRetries - (rc + 1)) + 1 := by omega
  rw [determine_category, hb, determineCategoryGo, hcall]
  dsimp only
  rw [if_pos hrl]
  rfl

/-- Every `determine_category` invocation makes at least one external call. -/
theorem determine_category_attempts_pos (cfg : Config)
    (call : Nat → Except String String) (rc : Nat) :
    1 ≤ (determine_category cfg call rc).attempts := by
  rw [determine_category]
  cases cfg.maxRetries - rc with
  | zero =>
    rw [determineCategoryGo]
    split <;> simp
  | succ b =>
    rw [determineCategoryGo]
    split
    · simp
    · split <;> simp

/-- Unfolding of the `a.py` while loop when entered with an exhausted
budget: no call is made and the counter is left as is. -/
theorem entryLoop_exhausted (mr rd : Nat) (call : Nat → Except String String)
    (idx rc : Nat) (hrc : mr ≤ rc) :
    entryLoop mr rd call idx rc = ⟨none, none, [], 0, rc⟩ := by
  have hb : mr - rc = 0 := by omega
  rw [entryLoop, hb, entryLoopGo]

/-- Unfolding of the `a.py` while loop on success: one call, no sleep,
and the counter is reset to 0. -/
theorem entryLoop_ok (mr rd : Nat) (call : Nat → Except String String)
    (idx rc : Nat) (c : String) (hcall : call idx = .ok c) (hrc : rc < mr) :
    entryLoop mr rd call idx rc = ⟨some c, none, [], 1, 0⟩ := by
  have hb : mr - rc = (mr - (rc + 1)) + 1 := by omega
  rw [entryLoop, hb, entryLoopGo, hcall]

/-- Unfolding of the `a.py` while loop on a non-429 failure: the loop
breaks after one call, surfacing the cause, the counter untouched. -/
theorem entryLoop_terminal (mr rd : Nat) (call : Nat → Except String String)
    (idx rc : Nat) (e : String) (hcall : call idx = .error e)
    (h429 : contains429 e = false) (hrc : rc < mr) :
    entryLoop mr rd call idx rc = ⟨none, some e, [], 1, rc⟩ := by
  have hb : mr - rc = (mr - (rc + 1)) + 1 := by omega
  rw [entryLoop, hb, entryLoopGo, hcall]
  dsimp only
  rw [h429]
  simp

/-- Unfolding of the `a.py` while loop on a 429 failure within budget:
one sleep of `retry_delay`, then the loop continues with the counter
incremented. -/
theorem entryLoop_retry (mr rd : Nat) (call : Nat → Except String String)
    (idx rc : Nat) (e : String) (hcall : call idx = .error e)
    (h429 : contains429 e = true) (hrc : rc < mr) :
    entryLoop mr rd call idx rc =
      ⟨(entryLoop mr rd call (idx + 1) (rc + 1)).result,
        (entryLoop mr rd call (idx + 1) (rc + 1)).cause,
        rd :: (entryLoop mr rd call (idx + 1) (rc + 1)).sleeps,
        (entryLoop mr rd call (idx + 1) (rc + 1)).attempts + 1,
        (entryLoop mr rd call (idx + 1) (rc + 1)).retryCountAfter⟩ := by
  have hb : mr - rc = (mr - (rc + 1)) + 1 := by omega
  rw [entryLoop, hb, entryLoopGo, hcall]
  dsimp only
  rw [h429]
  rfl

/-- The `main` loop produces exactly one outcome per article. -/
theorem processArticles_outcomes_length (cfg : Config)
    (call : Nat → Nat → Except String String) :
    ∀ (as : List Article) (i : Nat) (file : List CategorizedArticle),
      (processArticles cfg call i file as).outcomes.length = as.length := by
  intro as
  induction as with
  | nil => intro i file; rfl
  | cons a rest ih =>
    intro i file
    simp only [processArticles]
    split <;> simp [ih]

/-- The `main` loop only ever appends to the persisted file: the final
file content is the initial content followed by the same suffix the loop
produces when started from an empty file. -/
theorem processArticles_file_shift (cfg : Config)
    (call : Nat → Nat → Except String String) :
    ∀ (as : List Article) (i : Nat) (file : List CategorizedArticle),
      (processArticles cfg call i file as).file =
        file ++ (processArticles cfg call i [] as).file := by
  intro as
  induction as with
  | nil => intro i file; simp [processArticles]
  | cons a rest ih =>
    intro i file
    simp only [processArticles, save_categorized_articles]
    split
    · rw [ih (_ + 1) (file ++ _), ih (_ + 1) ([] ++ _)]
      simp
    · exact ih (_ + 1) file

/-- The classifier calls made by the `main` loop do not depend on the
content already in the persisted file. -/
theorem processArticles_calls_indep (cfg : Config)
    (call : Nat → Nat → Except String String) :
    ∀ (as : List Article) (i : Nat) (file : List CategorizedArticle),
      (processArticles cfg call i file as).calls =
        (processArticles cfg call i [] as).calls := by
  intro as
  induction as with
  | nil => intro i file; rfl
  | cons a rest ih =>
    intro i file
    simp only [processArticles, save_categorized_articles]
    split
    · rw [ih (_ + 1) (file ++ _), ih (_ + 1) ([] ++ _)]
    · rw [ih (_ + 1) file, ih (_ + 1) ([] : List CategorizedArticle)]

/-- Every article position handed to the `main` loop receives at least
its first classifier call (attempt 0). -/
theorem processArticles_calls_cover (cfg : Config)
    (call : Nat → Nat → Except String String) :
    ∀ (as : List Article) (i : Nat) (file : List CategorizedArticle)
      (k : Nat), k < as.length →
      (i + k, 0) ∈ (processArticles cfg call i file as).calls := by
  intro as
  induction as with
  | nil => intro i file k hk; exact absurd hk (by simp)
  | cons a rest ih =>
    intro i file k hk
    have hmem : (i, 0) ∈ (List.range
        (determine_category cfg (call i) 0).attempts).map fun j => (i, j) := by
      refine List.mem_map.mpr ⟨0, ?_, rfl⟩
      exact List.mem_range.mpr (determine_category_attempts_pos cfg (call i) 0)
    simp only [processArticles]
    cases k with
    | zero =>
      split <;> · simp only []; exact List.mem_append_left _ hmem
    | succ k' =>
      have hk' : k' < rest.length := by
        simpa [Nat.succ_lt_succ_iff] using hk
      have harith : i + (k' + 1) = (i + 1) + k' := by omega
      split <;>
      · simp only []
        rw [harith]
        exact List.mem_append_right _ (ih (i + 1) _ k' hk')

/-- Every classifier call made by the `main` loop targets an article
index inside the range of the list the loop was given. -/
theorem processArticles_calls_bounds (cfg : Config)
    (call : Nat → Nat → Except String String) :
    ∀ (as : List Article) (i : Nat) (file : List CategorizedArticle)
      (c : Nat × Nat), c ∈ (processArticles cfg call i file as).calls →
      i ≤ c.1 ∧ c.1 < i + as.length := by
  intro as
  induction as with
  | nil => intro i file c hc; exact absurd hc (by simp [processArticles])
  | cons a rest ih =>
    intro i file c hc
    simp only [processArticles] at hc
    have step : ∀ (f : List CategorizedArticle),
        c ∈ ((List.range (determine_category cfg (call i) 0).attempts).map
          fun j => (i, j)) ++ (processArticles cfg call (i + 1) f rest).calls →
        i ≤ c.1 ∧ c.1 < i + (a :: rest).length := by
      intro f hmem
      rcases List.mem_append.mp hmem with hl | hr
      · rcases List.mem_map.mp hl with ⟨j, _, rfl⟩
        simp only [List.length_cons]
        omega
      · have := ih (i + 1) f c hr
        simp only [List.length_cons]
        omega
    revert hc
    split <;> · intro hc; exact step _ hc

/-- Successive file snapshots written by the `main` loop each extend the
previous one by exactly one record. -/
theorem processArticles_saves_chain (cfg : Config)
    (call : Nat → Nat → Except String String) :
    ∀ (as : List Article) (i : Nat) (file : List CategorizedArticle),
      List.Chain' (fun s t => ∃ r0, t = s ++ [r0])
        (file :: (processArticles cfg call i file as).saves) := by
  intro as
  induction as with
  | nil => intro i file; simp [processArticles]
  | cons a rest ih =>
    intro i file
    simp only [processArticles, save_categorized_articles]
    split
    · exact List.Chain'.cons ⟨_, rfl⟩ (ih (i + 1) _)
    · exact ih (i + 1) file

/-- Every `Outcome` is either processed or failed, so the two counts
partition any outcome list. -/
theorem outcome_count_partition (l : List Outcome) :
    l.countP Outcome.isProcessed + l.countP Outcome.isFailed = l.length := by
  induction l with
  | nil => rfl
  | cons o rest ih =>
    simp only [List.countP_cons, List.length_cons]
    cases o <;> simp [Outcome.isProcessed, Outcome.isFailed] <;> omega

/-- The `a.py` loop produces exactly one outcome per entry. -/
theorem aLoop_outcomes_length (mr rd : Nat)
    (call : Nat → Nat → Except String String) :
    ∀ (entries : List AEntry) (idx rc : Nat) (data : List ACategorized),
      (aLoop mr rd call idx rc data entries).outcomes.length = entries.length := by
  intro entries
  induction entries with
  | nil => intro idx rc data; rfl
  | cons e rest ih =>
    intro idx rc data
    simp only [aLoop]
    split
    · simp [ih]
    · split <;> simp [ih]

/-- Successive `save_progress` snapshots written by the `a.py` loop each
extend the previous one by exactly one record. -/
theorem aLoop_saves_chain (mr rd : Nat)
    (call : Nat → Nat → Except String String) :
    ∀ (entries : List AEntry) (idx rc : Nat) (data : List ACategorized),
      List.Chain' (fun s t => ∃ r0, t = s ++ [r0])
        (data :: (aLoop mr rd call idx rc data entries).saves) := by
  intro entries
  induction entries with
  | nil => intro idx rc data; simp [aLoop]
  | cons e rest ih =>
    intro idx rc data
    simp only [aLoop]
    split
    · exact List.Chain'.cons ⟨_, rfl⟩ (ih (idx + 1) _ _)
    · split
      · exact ih (idx + 1) _ data
      · exact ih (idx + 1) 0 data

/-- Every `AOutcome` is processed, failed or retries-exhausted, so the
three counts partition any outcome list. -/
theorem aoutcome_count_partition (l : List AOutcome) :
    l.countP AOutcome.isProcessed + l.countP AOutcome.isFailed
      + l.countP AOutcome.isMaxRetriesSkipped = l.length := by
  induction l with
  | nil => rfl
  | cons o rest ih =>
    simp only [List.countP_cons, List.length_cons]
    cases o <;>
      simp [AOutcome.isProcessed, AOutcome.isFailed,
        AOutcome.isMaxRetriesSkipped] <;> omega

/-- Claim C1 (amended): the driver performs no dedup check, so a second
run over the same candidate list does not skip anything: the first run
appends a block of new records to the store, the second run appends the
very same block again (each per-run key occurs once more per run), and
the second run makes exactly the same classifier calls as the first
(not zero). -/
theorem c1_no_dedup (cfg : Config) (call : Nat → Nat → Except String String)
    (articles : List Article) (file : List CategorizedArticle) :
    (main cfg call articles file).file
        = file ++ (main cfg call articles []).file ∧
    (main cfg call articles (main cfg call articles file).file).file
        = file ++ (main cfg call articles []).file
            ++ (main cfg call articles []).file ∧
    (main cfg call articles (main cfg call articles file).file).calls
        = (main cfg call articles file).calls := by
  simp only [main]
  refine ⟨processArticles_file_shift cfg call _ 1 file, ?_, ?_⟩
  · rw [processArticles_file_shift cfg call _ 1
      (processArticles cfg call 1 file (articles.take cfg.limit)).file,
      processArticles_file_shift cfg call _ 1 file,
      List.append_assoc]
  · rw [processArticles_calls_indep cfg call _ 1
      (processArticles cfg call 1 file (articles.take cfg.limit)).file,
      processArticles_calls_indep cfg call _ 1 file]

/-- Claim C1, counterexample: running `main` twice on the single
candidate titled "A" (classifier always returns "Technology") leaves the
dedup key "A" in the store twice, and the second run still makes one
classifier call, contradicting the claim that each unique key appears
exactly once and that the second run makes zero calls. -/
theorem c1_counterexample :
    (let r1 := main ⟨3, 5, false, 30, 5, 10⟩ (fun _ _ => .ok "Technology")
        [⟨some "A", none, none, some "u1", none⟩] []
     let r2 := main ⟨3, 5, false, 30, 5, 10⟩ (fun _ _ => .ok "Technology")
        [⟨some "A", none, none, some "u1", none⟩] r1.file
     r2.file.countP (fun r => r.originalTitle == "A") = 2 ∧
       r2.calls = [(1, 0)]) := by
  decide

/-- Claim C2: on a retryable (rate-limit) failure within the budget, the
delay slept before the retry is `backoffDelay`, which equals the fixed
`retry_delay` when exponential backoff is not configured and
`min (retry_delay * 2 ^ attempts) max_backoff` when it is; after that
one sleep the same operation is retried with the counter incremented. -/
theorem c2_retry_delay (cfg : Config)
    (call : Nat → Except String String) (e : String) (rc : Nat)
    (hcall : call rc = .error e)
    (hrl : isRateLimitMsg e = true)
    (hrc : rc < cfg.maxRetries) :
    determine_category cfg call rc =
      ⟨(determine_category cfg call (rc + 1)).result,
        backoffDelay cfg rc :: (determine_category cfg call (rc + 1)).delays,
        (determine_category cfg call (rc + 1)).attempts + 1⟩ ∧
    (cfg.exponentialBackoff = true →
      backoffDelay cfg rc = min (cfg.retryDelay * 2 ^ rc) cfg.maxBackoff) ∧
    (cfg.exponentialBackoff = false →
      backoffDelay cfg rc = cfg.retryDelay) := by
  refine ⟨determine_category_retry cfg call e rc hcall hrl hrc, ?_, ?_⟩
  · intro h; simp [backoffDelay, h]
  · intro h; simp [backoffDelay, h]

/-- Claim C2, witness at a concrete input: a first call failing with
message "rate limit hit" under exponential backoff. -/
theorem c2_retry_delay_witness :
    (let cfg : Config := ⟨3, 5, true, 30, 5, 10⟩
     let call : Nat → Except String String :=
       fun k => if k = 0 then .error "rate limit hit" else .ok "T"
     call 0 = .error "rate limit hit" ∧ isRateLimitMsg "rate limit hit" = true ∧
       0 < cfg.maxRetries ∧
       (determine_category cfg call 0 =
         ⟨(determine_category cfg call 1).result,
           backoffDelay cfg 0 :: (determine_category cfg call 1).delays,
           (determine_category cfg call 1).attempts + 1⟩ ∧
        (cfg.exponentialBackoff = true →
          backoffDelay cfg 0 = min (cfg.retryDelay * 2 ^ 0) cfg.maxBackoff) ∧
        (cfg.exponentialBackoff = false →
          backoffDelay cfg 0 = cfg.retryDelay))) :=
  ⟨rfl, by decide, by decide,
    c2_retry_delay _ _ _ _ rfl (by decide) (by decide)⟩

/-- Claim C3: evaluation of `a.py` at the failing input exhibiting the
retry-budget carryover bug.  Entry 0 suffers two 429 failures and then a
terminal error; the terminal `break` does not reset `retry_count`, so
entry 1 starts with `retry_count = 2` out of `max_retries = 3` and is
skipped as "maximum retries reached" after a single 429 failure — even
though with a fresh counter (last conjunct) entry 1 would have succeeded
with category "Tech" on its second call.  The code therefore violates
the claim that failures on one record never reduce the budget of the
next; the reset the claim describes does happen on the success and
retries-exhausted paths, just not on the terminal-error path. -/
theorem c3_retry_budget_carryover :
    (let call : Nat → Nat → Except String String := fun i k =>
       if i = 0 then (if k < 2 then .error "status 429" else .error "boom")
       else (if k = 0 then .error "http 429" else .ok "Tech")
     let r := analyze_and_categorize_data 3 5 call
       [⟨"t1", "o1", none⟩, ⟨"t2", "o2", none⟩]
     r.outcomes = [.failed "boom", .maxRetriesSkipped] ∧
     r.calls = [(0, 0), (0, 1), (0, 2), (1, 0)] ∧
     r.data = [] ∧
     (entryLoop 3 5 (call 1) 0 0).result = some "Tech") := by
  decide

/-- Claim C4: a non-retryable (terminal) classification failure is not
re-attempted — `determine_category` surfaces it after exactly one call
with its cause, the `main` loop records the article as failed and
continues with the remaining articles, and likewise the `a.py` loop
breaks after one call on a non-429 error, surfacing the cause. -/
theorem c4_terminal_no_retry (cfg : Config) (call : Nat → Except String String)
    (e : String) (rc : Nat) (hcall : call rc = .error e)
    (hrl : isRateLimitMsg e = false)
    (driver : Nat → Nat → Except String String) (i : Nat) (a : Article)
    (rest : List Article) (file : List CategorizedArticle) (e' : String)
    (hres : (determine_category cfg (driver i) 0).result = .error e')
    (mr rd idx rcA : Nat) (callA : Nat → Except String String) (eA : String)
    (hcallA : callA idx = .error eA) (h429 : contains429 eA = false)
    (hrcA : rcA < mr) :
    determine_category cfg call rc = ⟨.error e, [], 1⟩ ∧
    processArticles cfg driver i file (a :: rest) =
      (let r := processArticles cfg driver (i + 1) file rest
       ⟨r.file, r.saves, .failed e' :: r.outcomes,
        ((List.range (determine_category cfg (driver i) 0).attempts).map
          fun k => (i, k)) ++ r.calls,
        (if 1 < i then [cfg.requestDelay] else [])
          ++ (determine_category cfg (driver i) 0).delays ++ r.sleeps⟩) ∧
    entryLoop mr rd callA idx rcA = ⟨none, some eA, [], 1, rcA⟩ := by
  refine ⟨determine_category_terminal cfg call e rc hcall hrl, ?_,
    entryLoop_terminal mr rd callA idx rcA eA hcallA h429 hrcA⟩
  simp only [processArticles, save_categorized_articles, hres]

/-- Claim C4, witness at a concrete input: a terminal failure "boom" on
the only candidate; the run records it failed and continues. -/
theorem c4_witness :
    ((fun _ => Except.error "boom" : Nat → Except String String) 0 =
        .error "boom") ∧
    isRateLimitMsg "boom" = false ∧ contains429 "boom" = false ∧ 0 < (3:Nat) ∧
    (determine_category ⟨3, 5, false, 30, 5, 10⟩ (fun _ => .error "boom") 0).result
        = .error "boom" ∧
    (determine_category ⟨3, 5, false, 30, 5, 10⟩ (fun _ => .error "boom") 0
        = ⟨.error "boom", [], 1⟩ ∧
     processArticles ⟨3, 5, false, 30, 5, 10⟩ (fun _ _ => .error "boom") 1 []
        [⟨some "A", none, none, none, none⟩] =
      (let r := processArticles ⟨3, 5, false, 30, 5, 10⟩
          (fun _ _ => .error "boom") 2 [] []
       ⟨r.file, r.saves, .failed "boom" :: r.outcomes,
        ((List.range (determine_category ⟨3, 5, false, 30, 5, 10⟩
            ((fun _ _ => .error "boom") 1) 0).attempts).map
          fun k => (1, k)) ++ r.calls,
        (if 1 < 1 then [(5:Nat)] else [])
          ++ (determine_category ⟨3, 5, false, 30, 5, 10⟩
            ((fun _ _ => .error "boom") 1) 0).delays ++ r.sleeps⟩) ∧
     entryLoop 3 5 (fun _ => .error "boom") 0 0 = ⟨none, some "boom", [], 1, 0⟩) :=
  ⟨rfl, by decide, by decide, by decide, by decide,
    c4_terminal_no_retry ⟨3, 5, false, 30, 5, 10⟩ _ "boom" 0 rfl (by decide)
      (fun _ _ => .error "boom") 1 ⟨some "A", none, none, none, none⟩ [] []
      "boom" (by decide) 3 5 0 0 _ "boom" rfl (by decide) (by decide)⟩

/-- Claim C5: on a successful classification the `main` loop appends the
new record to the store and flushes it (the snapshot `file ++ [record]`
is written) before the next candidate is processed — the remaining
candidates are handled starting from the already-flushed store, so an
interruption between candidates loses at most the in-flight record. -/
theorem c5_flush_before_next (cfg : Config)
    (call : Nat → Nat → Except String String) (i : Nat) (a : Article)
    (rest : List Article) (file : List CategorizedArticle) (category : String)
    (hres : (determine_category cfg (call i) 0).result = .ok category) :
    processArticles cfg call i file (a :: rest) =
      (let f1 := file ++ [mkCategorized a category]
       let r := processArticles cfg call (i + 1) f1 rest
       ⟨r.file, f1 :: r.saves, .processed category :: r.outcomes,
        ((List.range (determine_category cfg (call i) 0).attempts).map
          fun k => (i, k)) ++ r.calls,
        (if 1 < i then [cfg.requestDelay] else [])
          ++ (determine_category cfg (call i) 0).delays ++ r.sleeps⟩) := by
  simp only [processArticles, save_categorized_articles, hres]

/-- Claim C5, witness at a concrete input: one candidate classified as
"T" on the first call, added and flushed immediately. -/
theorem c5_witness :
    (determine_category ⟨3, 5, false, 30, 5, 10⟩
        ((fun _ _ => Except.ok "T" : Nat → Nat → Except String String) 1) 0).result
      = .ok "T" ∧
    processArticles ⟨3, 5, false, 30, 5, 10⟩ (fun _ _ => .ok "T") 1 []
        [⟨some "A", none, none, none, none⟩] =
      (let f1 := ([] : List CategorizedArticle)
          ++ [mkCategorized ⟨some "A", none, none, none, none⟩ "T"]
       let r := processArticles ⟨3, 5, false, 30, 5, 10⟩ (fun _ _ => .ok "T") 2 f1 []
       ⟨r.file, f1 :: r.saves, .processed "T" :: r.outcomes,
        ((List.range (determine_category ⟨3, 5, false, 30, 5, 10⟩
            ((fun _ _ => Except.ok "T" : Nat → Nat → Except String String) 1)
            0).attempts).map fun k => (1, k)) ++ r.calls,
        (if 1 < 1 then [(5:Nat)] else [])
          ++ (determine_category ⟨3, 5, false, 30, 5, 10⟩
            ((fun _ _ => Except.ok "T" : Nat → Nat → Except String String) 1)
            0).delays ++ r.sleeps⟩) :=
  ⟨by decide,
    c5_flush_before_next ⟨3, 5, false, 30, 5, 10⟩ (fun _ _ => .ok "T") 1
      ⟨some "A", none, none, none, none⟩ [] [] "T" (by decide)⟩

/-- Claim C6: every flush preserves insertion order.  In
`save_categorized_articles` with `append=True` the prior file entries
come first, in their original order, and the new records are appended
after them; and in both drivers the sequence of flushed snapshots is a
chain in which each snapshot extends the previous one by exactly one
newly annotated record (so prior entries keep their relative order and
new entries append after them). -/
theorem c6_order_preservation :
    (∀ (newArts prior : List CategorizedArticle),
      save_categorized_articles newArts true (some prior) = prior ++ newArts) ∧
    (∀ (cfg : Config) (call : Nat → Nat → Except String String)
      (articles : List Article) (file : List CategorizedArticle),
      List.Chain' (fun s t => ∃ r0, t = s ++ [r0])
        (file :: (main cfg call articles file).saves)) ∧
    (∀ (mr rd : Nat) (call : Nat → Nat → Except String String)
      (entries : List AEntry),
      List.Chain' (fun s t => ∃ r0, t = s ++ [r0])
        ([] :: (analyze_and_categorize_data mr rd call entries).saves)) := by
  refine ⟨fun newArts prior => rfl, ?_, ?_⟩
  · intro cfg call articles file
    exact processArticles_saves_chain cfg call _ 1 file
  · intro mr rd call entries
    exact aLoop_saves_chain mr rd call entries 0 0 []

/-- Claim C7: every candidate processed by a run ends in exactly one
terminal state, so the outcome counts sum to the number of candidates.
For `main` the candidates are `articles[:limit]` and the states are
processed and failed (the driver has no skip path, so the skipped count
of the claim is identically zero); for `a.py` the states are processed,
failed and retries-exhausted. -/
theorem c7_outcome_partition (cfg : Config)
    (call : Nat → Nat → Except String String) (articles : List Article)
    (file : List CategorizedArticle) (mr rd : Nat)
    (callA : Nat → Nat → Except String String) (entries : List AEntry) :
    (main cfg call articles file).outcomes.countP Outcome.isProcessed
      + (main cfg call articles file).outcomes.countP Outcome.isFailed
      = (articles.take cfg.limit).length ∧
    (analyze_and_categorize_data mr rd callA entries).outcomes.countP
        AOutcome.isProcessed
      + (analyze_and_categorize_data mr rd callA entries).outcomes.countP
        AOutcome.isFailed
      + (analyze_and_categorize_data mr rd callA entries).outcomes.countP
        AOutcome.isMaxRetriesSkipped
      = entries.length := by
  constructor
  · rw [outcome_count_partition]
    exact processArticles_outcomes_length cfg call _ 1 file
  · rw [aoutcome_count_partition]
    exact aLoop_outcomes_length mr rd callA entries 0 0 []

/-- Claim C8 (amended): the driver has no time-budget check at all —
regardless of how much wall-clock time the sleeps have accumulated,
every candidate within the articles limit is still submitted to the
classifier (it receives its attempt-0 call) and receives an outcome;
the run never stops early. -/
theorem c8_no_budget_stop (cfg : Config)
    (call : Nat → Nat → Except String String) (articles : List Article)
    (file : List CategorizedArticle) (k : Nat)
    (hk : k < (articles.take cfg.limit).length) :
    (k + 1, 0) ∈ (main cfg call articles file).calls ∧
    (main cfg call articles file).outcomes.length
      = (articles.take cfg.limit).length := by
  constructor
  · have := processArticles_calls_cover cfg call (articles.take cfg.limit)
      1 file k hk
    have harith : 1 + k = k + 1 := by omega
    rw [harith] at this
    exact this
  · exact processArticles_outcomes_length cfg call _ 1 file

/-- Claim C8 (amended), witness at a concrete input: the third of three
candidates is still called. -/
theorem c8_no_budget_stop_witness :
    2 < ([(⟨some "A", none, none, none, none⟩ : Article),
          ⟨some "B", none, none, none, none⟩,
          ⟨some "C", none, none, none, none⟩].take
        (⟨3, 5, false, 30, 5, 10⟩ : Config).limit).length ∧
    ((3, 0) ∈ (main ⟨3, 5, false, 30, 5, 10⟩ (fun _ _ => .ok "T")
        [⟨some "A", none, none, none, none⟩,
         ⟨some "B", none, none, none, none⟩,
         ⟨some "C", none, none, none, none⟩] []).calls ∧
     (main ⟨3, 5, false, 30, 5, 10⟩ (fun _ _ => .ok "T")
        [⟨some "A", none, none, none, none⟩,
         ⟨some "B", none, none, none, none⟩,
         ⟨some "C", none, none, none, none⟩] []).outcomes.length
       = ([(⟨some "A", none, none, none, none⟩ : Article),
           ⟨some "B", none, none, none, none⟩,
           ⟨some "C", none, none, none, none⟩].take
         (⟨3, 5, false, 30, 5, 10⟩ : Config).limit).length) :=
  ⟨by decide,
    c8_no_budget_stop ⟨3, 5, false, 30, 5, 10⟩ (fun _ _ => .ok "T") _ [] 2
      (by decide)⟩

/-- Claim C8, counterexample: with `request_delay = 5` and three
immediately successful candidates, the run has already slept 10 time
units before the third classifier call (`r.sleeps = [5, 5]`, both
occurring before the call `(3, 0)`), which exceeds any positive budget
such as 1; yet the third candidate is still classified, processed and
persisted, and no candidate is left for a future run — there is no
budget check and no flush-then-stop anywhere in the loop. -/
theorem c8_counterexample :
    (let r := main ⟨3, 5, false, 30, 5, 10⟩ (fun _ _ => .ok "T")
        [⟨some "A", none, none, none, none⟩,
         ⟨some "B", none, none, none, none⟩,
         ⟨some "C", none, none, none, none⟩] []
     r.sleeps = [5, 5] ∧ r.sleeps.sum = 10 ∧ 1 < r.sleeps.sum ∧
     r.outcomes = [.processed "T", .processed "T", .processed "T"] ∧
     r.calls = [(1, 0), (2, 0), (3, 0)] ∧
     r.file.length = 3) := by
  decide

/-- Claim C9: a run of `main` is entirely a function of
`articles[:limit]` — candidates at or beyond the limit are never sent to
the classifier and never persisted.  Every classifier call targets a
1-based index at most `limit`, and at most `limit` candidates receive
outcomes, regardless of the length of the fetched list. -/
theorem c9_articles_limit (cfg : Config)
    (call : Nat → Nat → Except String String) (articles : List Article)
    (file : List CategorizedArticle) :
    main cfg call articles file = main cfg call (articles.take cfg.limit) file ∧
    (main cfg call articles file).calls.all
      (fun c => decide (1 ≤ c.1 ∧ c.1 ≤ cfg.limit)) = true ∧
    (main cfg call articles file).outcomes.length ≤ cfg.limit := by
  refine ⟨?_, ?_, ?_⟩
  · simp [main, List.take_take]
  · rw [List.all_eq_true]
    intro c hc
    simp only [main] at hc
    have hb := processArticles_calls_bounds cfg call (articles.take cfg.limit)
      1 file c hc
    have hlen : (articles.take cfg.limit).length ≤ cfg.limit := by
      rw [List.length_take]
      exact Nat.min_le_left _ _
    simp only [decide_eq_true_eq]
    omega
  · rw [main, processArticles_outcomes_length, List.length_take]
    exact Nat.min_le_left _ _

/-- Claim C10: a failure is treated as retryable exactly when its
message contains the substring "429" (`a.py`) or, after lowercasing,
"rate limit" (`ai_category.py`): within the retry budget, a backoff
sleep happens iff the substring test succeeds.  Consequently a failure
mentioning "4290" in a non-rate-limit message is retried, while genuine
rate-limit messages such as "Too Many Requests" or "too many requests"
that lack the substring are treated as terminal; the
`ai_category.py` test is case-insensitive ("Rate Limit exceeded"
matches). -/
theorem c10_retryable_substring :
    (∀ (cfg : Config) (call : Nat → Except String String) (e : String) (rc : Nat),
      call rc = .error e → rc < cfg.maxRetries →
      ((determine_category cfg call rc).delays ≠ [] ↔ isRateLimitMsg e = true)) ∧
    (∀ (mr rd : Nat) (call : Nat → Except String String) (idx rc : Nat) (e : String),
      call idx = .error e → rc < mr →
      ((entryLoop mr rd call idx rc).sleeps ≠ [] ↔ contains429 e = true)) ∧
    contains429 "connection reset by peer at socket 4290" = true ∧
    isRateLimitMsg "Too Many Requests - quota exhausted" = false ∧
    isRateLimitMsg "Rate Limit exceeded" = true ∧
    contains429 "too many requests" = false := by
  refine ⟨?_, ?_, by decide, by decide, by decide, by decide⟩
  · intro cfg call e rc hcall hrc
    by_cases hrl : isRateLimitMsg e = true
    · rw [determine_category_retry cfg call e rc hcall hrl hrc]
      simp [hrl]
    · have hrl' : isRateLimitMsg e = false := by
        cases h : isRateLimitMsg e
        · rfl
        · exact absurd h hrl
      rw [determine_category_terminal cfg call e rc hcall hrl']
      simp [hrl']
  · intro mr rd call idx rc e hcall hrc
    cases h429 : contains429 e
    · rw [entryLoop_terminal mr rd call idx rc e hcall h429 hrc]
      simp
    · rw [entryLoop_retry mr rd call idx rc e hcall h429 hrc]
      simp

/-- Claim C10, witness at a concrete input: a "rate limit hit" failure
is retried by `determine_category`, and an "err 429" failure is retried
by the `a.py` loop. -/
theorem c10_witness :
    ((fun _ => Except.error "rate limit hit" : Nat → Except String String) 0 =
        .error "rate limit hit") ∧ 0 < (3:Nat) ∧
    ((determine_category ⟨3, 5, false, 30, 5, 10⟩
        (fun _ => .error "rate limit hit") 0).delays ≠ []
      ↔ isRateLimitMsg "rate limit hit" = true) ∧
    ((entryLoop 3 5 (fun _ => .error "err 429") 0 0).sleeps ≠ []
      ↔ contains429 "err 429" = true) :=
  ⟨rfl, by decide,
    c10_retryable_substring.1 ⟨3, 5, false, 30, 5, 10⟩ _ _ 0 rfl (by decide),
    c10_retryable_substring.2.1 3 5 _ 0 0 _ rfl (by decide)⟩
